import Mathlib

/-!
Verification of the subdomain provisioning admission-control and audit pipeline
(`backend/app/services/security_service.py` and
`backend/app/services/secure_deployment_service.py`).

The Python services are shallowly embedded: module-level mutable state
(`rate_limit_store`, `security_audit_log`, `active_subdomains`) becomes explicit
state records threaded through the functions; `datetime.now()` becomes an
explicit integer timestamp parameter (seconds); Python exceptions become
`Except PyErr`; dictionaries become association lists preserving insertion
order.  Wall-clock ISO timestamp strings stored in audit entries are not
modelled (no claim concerns them).
-/

/-- Python exception values that the embedded code can raise.  Messages mirror
the CPython messages, minus quoting. -/
inductive PyErr where
  | attributeError (msg : String)
  | typeError (msg : String)
deriving DecidableEq

def pyErrMessage : PyErr → String
  | .attributeError m => m
  | .typeError m => m

instance {ε α : Type} [DecidableEq ε] [DecidableEq α] : DecidableEq (Except ε α) :=
  fun x y =>
    match x, y with
    | .ok a, .ok b =>
        if h : a = b then .isTrue (by rw [h])
        else .isFalse (by intro hh; cases hh; exact h rfl)
    | .ok _, .error _ => .isFalse (by intro hh; cases hh)
    | .error _, .ok _ => .isFalse (by intro hh; cases hh)
    | .error e, .error f =>
        if h : e = f then .isTrue (by rw [h])
        else .isFalse (by intro hh; cases hh; exact h rfl)

/-- The `SecurityLevel` enum of the source. -/
inductive SecurityLevel where
  | low
  | medium
  | high
  | critical
deriving DecidableEq

/-- The `ThreatType` enum of the source. -/
inductive ThreatType where
  | subdomainTakeover
  | xssAttempt
  | sqlInjection
  | phishingAttempt
  | rateLimitViolation
  | suspiciousActivity
deriving DecidableEq

/-- Scalar python values appearing in audit-event metadata bags. -/
inductive PyScalar where
  | pint (n : Int)
  | pstr (s : String)
  | pbool (b : Bool)
deriving DecidableEq

/-! String helpers mirroring the Python string operations used by the source. -/

/-- Occurrence test: does `pat` occur as a contiguous sublist of the argument?
Mirrors Python `pat in s` on strings. -/
def subOccurs (pat : List Char) : List Char → Bool
  | [] => pat.isEmpty
  | c :: cs => pat.isPrefixOf (c :: cs) || subOccurs pat cs

/-- Python `pat in hay` substring test. -/
def strContains (hay pat : String) : Bool :=
  subOccurs pat.toList hay.toList

/-- Python `str.lower`, modelled on the ASCII range (every concrete input used
in the development is ASCII). -/
def pyLower (s : String) : String :=
  String.mk (s.toList.map Char.toLower)

/-- Character class `[a-z0-9]` of the source regexes. -/
def isLowerAlnum (c : Char) : Bool :=
  ('a' ≤ c && c ≤ 'z') || ('0' ≤ c && c ≤ '9')

/-- Full match of the body of the regex `^[a-z0-9]([a-z0-9-]*[a-z0-9])?$`:
nonempty, first and last characters alphanumeric, every character alphanumeric
or a hyphen. -/
def bodyMatch (l : List Char) : Bool :=
  match l, l.getLast? with
  | [], _ => false
  | _ :: _, none => false
  | c :: cs, some d =>
      isLowerAlnum c && isLowerAlnum d &&
        (c :: cs).all (fun e => isLowerAlnum e || e == '-')

/-- Python `re.match` of `^[a-z0-9]([a-z0-9-]*[a-z0-9])?$` as used in
`_validate_input`.  Python `$` also matches just before a single trailing
newline, which the second disjunct reproduces. -/
def pyReMatchSubdomain (s : String) : Bool :=
  bodyMatch s.toList ||
    (s.toList.getLast? == some (Char.ofNat 10) && bodyMatch s.toList.dropLast)

/-- Python `name.count('-')` for the single-character pattern. -/
def hyphenCount (s : String) : Nat :=
  (s.toList.filter (fun c => c == '-')).length

/-- Python `re.search(r'[0-9]', s)` truthiness. -/
def hasDigit (s : String) : Bool :=
  s.toList.any (fun c => '0' ≤ c && c ≤ '9')

/-! The `SecurityService` data: constant tables and mutable state. -/

/-- The `blocked_patterns` table of `SecurityService.__init__`.  Each entry is a
regex without metacharacters, so `re.search` is a substring test. -/
def blockedPatterns : List String :=
  ["admin", "api", "www", "mail", "ftp", "ssh", "telnet",
   "root", "system", "config", "backup", "test", "dev",
   "staging", "beta", "alpha", "local", "localhost",
   "secure", "login", "auth", "oauth", "payment",
   "bank", "paypal", "stripe", "credit", "card"]

/-- The `suspicious_chars` table of `SecurityService.__init__`. -/
def suspiciousChars : List String :=
  ["--", "/*", "*/", "union", "select", "insert", "update",
   "delete", "drop", "create", "alter", "exec", "eval",
   "script", "javascript", "vbscript", "onload", "onerror"]

/-- The `suspicious_unicode` table of `_detect_homograph_attack` (Cyrillic
look-alike code points). -/
def suspiciousUnicode : List Char :=
  [Char.ofNat 0x0430, Char.ofNat 0x0435, Char.ofNat 0x043e,
   Char.ofNat 0x0440, Char.ofNat 0x0441, Char.ofNat 0x0443,
   Char.ofNat 0x0445, Char.ofNat 0x0454, Char.ofNat 0x0456,
   Char.ofNat 0x0457, Char.ofNat 0x0491, Char.ofNat 0x04cf]

/-- One record of `security_audit_log` as appended by `_log_security_audit`
(the wall-clock `timestamp` string is not modelled). -/
structure AuditEntry where
  event_type : String
  description : String
  severity : SecurityLevel
  client_ip : String
  subdomain : Option String
  threat_type : Option ThreatType
  metadata : Option (List (String × PyScalar))
deriving DecidableEq

/-- Mutable state of the `SecurityService` singleton. -/
structure SecState where
  rate_limit_store : List (String × List Int)
  security_audit_log : List AuditEntry
deriving DecidableEq

/-- Reading `rate_limit_store[ip]` after the `if client_ip not in ...` guard
initialised a missing key to the empty list. -/
def storeGet (store : List (String × List Int)) (ip : String) : List Int :=
  match store.lookup ip with
  | some ts => ts
  | none => []

/-- Assignment `rate_limit_store[ip] = ts`: update in place when the key
exists, append a new binding otherwise (Python dict insertion order). -/
def storeSet : List (String × List Int) → String → List Int → List (String × List Int)
  | [], ip, ts => [(ip, ts)]
  | (k, v) :: rest, ip, ts =>
      if k = ip then (ip, ts) :: rest else (k, v) :: storeSet rest ip ts

/-- One hour, in the seconds of the modelled clock. -/
def oneHourSeconds : Int := 3600

/-- The client window after the cleaning step of `_check_rate_limit`: keep the
timestamps with `now - t < timedelta(hours=1)`. -/
def prunedTimes (now : Int) (ip : String) (st : SecState) : List Int :=
  (storeGet st.rate_limit_store ip).filter (fun t => now - t < oneHourSeconds)

/-- The audit entry logged by the rejection branch of `_check_rate_limit`. -/
def rateLimitEvent (ip : String) : AuditEntry :=
  { event_type := "rate_limit_violation"
    description := "Rate limit exceeded for IP: " ++ ip
    severity := .high
    client_ip := ip
    subdomain := none
    threat_type := some .rateLimitViolation
    metadata := none }

/-- `SecurityService._check_rate_limit`: prune the window, store the pruned
window, then reject (logging one event, recording nothing) when 5 or more
entries remain, otherwise record the current timestamp and allow. -/
def checkRateLimit (now : Int) (ip : String) (st : SecState) : Bool × SecState :=
  let pruned := prunedTimes now ip st
  if 5 ≤ pruned.length then
    (false,
      { rate_limit_store := storeSet st.rate_limit_store ip pruned
        security_audit_log := st.security_audit_log ++ [rateLimitEvent ip] })
  else
    (true,
      { rate_limit_store := storeSet st.rate_limit_store ip (pruned ++ [now])
        security_audit_log := st.security_audit_log })

/-- The low-effort-name patterns of `_calculate_security_score`. -/
def scorePatterns : List String := ["test", "demo", "temp", "tmp"]

/-- `SecurityService._calculate_security_score`. -/
def calculateSecurityScore (name : String) : Int :=
  let s0 : Int := 100
  let s1 := if name.length < 5 then s0 - 10 else s0
  let s2 := if hasDigit name then s1 else s1 - 5
  let s3 := if 2 < hyphenCount name then s2 - 15 else s2
  let s4 := scorePatterns.foldl
    (fun acc p => if strContains name p then acc - 20 else acc) s3
  max 0 s4

/-- `SecurityService._get_security_level`. -/
def getSecurityLevel (score : Int) : SecurityLevel :=
  if 80 ≤ score then .low
  else if 60 ≤ score then .medium
  else if 40 ≤ score then .high
  else .critical

/-- `SecurityService._get_security_recommendations`. -/
def getSecurityRecommendations (score : Int) : List String :=
  (if score < 80 then ["Consider using a more complex subdomain name"] else []) ++
  (if score < 60 then ["Avoid using common words or patterns"] else []) ++
  (if score < 40 then ["Security review recommended before deployment"] else [])

/-! The validation pipeline `SecurityService.validate_subdomain_security` and
its helpers.  Several audit constructions in the source omit the required
`client_ip` field of the `SecurityAudit` dataclass and therefore raise
`TypeError` at runtime; they are embedded as `Except.error`. -/

/-- Result dictionary of the validation pipeline.  Keys absent from a given
return literal are `none` (`threat_detected` is `false` when absent, matching
`get('threat_detected', False)` at the call sites). -/
structure ValidationResult where
  valid : Bool
  error : Option String := none
  security_score : Option Int := none
  security_level : Option SecurityLevel := none
  threat_detected : Bool := false
  recommendations : Option (List String) := none
deriving DecidableEq

/-- Length rejection of `_validate_input`. -/
def lengthErrorResult : ValidationResult :=
  { valid := false
    error := some "Subdomain must be between 3 and 63 characters."
    security_level := some .medium }

/-- Format rejection of `_validate_input`. -/
def formatErrorResult : ValidationResult :=
  { valid := false
    error := some "Subdomain must contain only lowercase letters, numbers, and hyphens."
    security_level := some .medium }

/-- `SecurityService._validate_input`.  When a suspicious token is found the
source constructs `SecurityAudit(...)` without the required `client_ip`
argument, which raises `TypeError` before the rejection dictionary is built;
that path is an `Except.error`. -/
def validateInput (name : String) : Except PyErr ValidationResult :=
  if name.length < 3 || 63 < name.length then
    .ok lengthErrorResult
  else if !(pyReMatchSubdomain name) then
    .ok formatErrorResult
  else
    match suspiciousChars.find? (fun s => strContains (pyLower name) s) with
    | some _ =>
        .error (PyErr.typeError
          "SecurityAudit init missing 1 required positional argument: client_ip")
    | none => .ok { valid := true }

/-- `SecurityService._check_blocked_patterns`.  On a match the source logs a
`SecurityAudit` without the required `client_ip` argument, so the `return True`
is never reached: the match raises `TypeError`. -/
def checkBlockedPatterns (name : String) : Except PyErr Bool :=
  match blockedPatterns.find? (fun p => strContains (pyLower name) p) with
  | some _ =>
      .error (PyErr.typeError
        "SecurityAudit init missing 1 required positional argument: client_ip")
  | none => .ok false

/-- `SecurityService._detect_homograph_attack`.  As in
`checkBlockedPatterns`, the audit construction on a hit omits `client_ip` and
raises `TypeError` before `return True`. -/
def detectHomograph (name : String) : Except PyErr Bool :=
  match suspiciousUnicode.find? (fun c => name.toList.contains c) with
  | some _ =>
      .error (PyErr.typeError
        "SecurityAudit init missing 1 required positional argument: client_ip")
  | none => .ok false

/-- Rate-limit rejection dictionary of `validate_subdomain_security`. -/
def rateLimitedResult : ValidationResult :=
  { valid := false
    error := some "Rate limit exceeded. Please try again later."
    security_level := some .critical
    threat_detected := true }

/-- Dictionary returned by the `except` handler of
`validate_subdomain_security`. -/
def genericFailureResult : ValidationResult :=
  { valid := false
    error := some "Security validation failed."
    security_level := some .critical
    threat_detected := true }

/-- Blocked-pattern rejection dictionary of `validate_subdomain_security`. -/
def blockedPatternsResult : ValidationResult :=
  { valid := false
    error := some "Subdomain name contains blocked patterns."
    security_level := some .high
    threat_detected := true }

/-- Homograph rejection dictionary of `validate_subdomain_security`. -/
def homographResult : ValidationResult :=
  { valid := false
    error := some "Subdomain name contains suspicious characters."
    security_level := some .high
    threat_detected := true }

/-- Audit entry appended on the success path of
`validate_subdomain_security`. -/
def validationEvent (name ip : String) (score : Int) : AuditEntry :=
  { event_type := "subdomain_validation"
    description := "Subdomain validation for: " ++ name
    severity := .low
    client_ip := ip
    subdomain := some name
    threat_type := none
    metadata := some [("security_score", PyScalar.pint score)] }

/-- The success dictionary of `validate_subdomain_security`, as a function of
the computed score. -/
def validResult (score : Int) : ValidationResult :=
  { valid := true
    security_score := some score
    security_level := some (getSecurityLevel score)
    recommendations := some (getSecurityRecommendations score) }

/-- `SecurityService.validate_subdomain_security`.  Exceptions raised by the
helper stages are caught by the surrounding `except` handler, which returns
`genericFailureResult`; state mutations made before the exception (the
rate-limit bookkeeping) persist. -/
def validateSubdomainSecurity (now : Int) (name ip : String) (st : SecState) :
    ValidationResult × SecState :=
  let rc := checkRateLimit now ip st
  if !rc.1 then
    (rateLimitedResult, rc.2)
  else
    match validateInput name with
    | .error _ => (genericFailureResult, rc.2)
    | .ok vr =>
      if !vr.valid then
        (vr, rc.2)
      else
        match checkBlockedPatterns name with
        | .error _ => (genericFailureResult, rc.2)
        | .ok true => (blockedPatternsResult, rc.2)
        | .ok false =>
          match detectHomograph name with
          | .error _ => (genericFailureResult, rc.2)
          | .ok true => (homographResult, rc.2)
          | .ok false =>
            let score := calculateSecurityScore name
            (validResult score,
              { rc.2 with
                  security_audit_log :=
                    rc.2.security_audit_log ++ [validationEvent name ip score] })

/-! The `SecureDeploymentService` embedding. -/

/-- One value of the `active_subdomains` dictionary (the `security_headers`
sub-dictionary is a string-to-string mapping). -/
structure SubdomainInfo where
  project_id : String
  created_at : Int
  security_score : Int
  ssl_configured : Bool
  security_headers : List (String × String)
deriving DecidableEq

/-- Mutable state of the `SecureDeploymentService` singleton together with the
`SecurityService` state it delegates to.  The `deployment_configs` attribute of
the source is never read or written by any method under verification and is
omitted. -/
structure DeployState where
  active_subdomains : List (String × SubdomainInfo)
  sec : SecState
deriving DecidableEq

/-- Python `name in active_subdomains` (case-sensitive dictionary key test). -/
def dictContains (d : List (String × SubdomainInfo)) (k : String) : Bool :=
  (d.lookup k).isSome

/-- The `re.sub(r'[^a-z0-9]', '', business_name.lower())` step of
`_generate_secure_subdomain`. -/
def cleanBusinessName (businessName : String) : String :=
  String.mk ((pyLower businessName).toList.filter (fun c => isLowerAlnum c))

/-- `SecureDeploymentService._generate_secure_subdomain`, literally: after
computing the cleaned name, the source evaluates
`security_service.secrets.token_urlsafe(4)`, but `secrets` is a module-level
name imported by `security_service.py`, not an attribute of the
`SecurityService` instance, so the attribute access raises `AttributeError`
unconditionally. -/
def generateSecureSubdomain (businessName : String) : Except PyErr String :=
  let _cleanName := cleanBusinessName businessName
  .error (PyErr.attributeError "SecurityService object has no attribute secrets")

/-- Result of `SecurityService.create_isolated_environment` (only the fields
the caller consults). -/
structure EnvResult where
  success : Bool
  error : Option String := none
deriving DecidableEq

/-- `SecurityService.create_isolated_environment`: the audit record at the end
of its `try` block is constructed without the required `client_ip` argument, so
a `TypeError` is raised and caught by its own handler, which returns
`success=False` with `str(e)`; nothing is appended to the audit log. -/
def createIsolatedEnvironment (_deploymentPath _projectId : String)
    (st : SecState) : EnvResult × SecState :=
  ({ success := false
     error := some "SecurityAudit init missing 1 required positional argument: client_ip" },
   st)

/-- Caller-facing result of `create_secure_subdomain` (fields absent from a
given return literal are `none`). -/
structure DeployResult where
  success : Bool
  error : Option String := none
  security_level : Option SecurityLevel := none
  threat_detected : Bool := false
  subdomain : Option String := none
  security_score : Option Int := none
  ssl_configured : Option Bool := none
deriving DecidableEq

/-- `SecureDeploymentService.create_secure_subdomain`.  The first statement of
its `try` block calls `_generate_secure_subdomain`, which raises
`AttributeError` (see `generateSecureSubdomain`); the handler returns the
`Deployment failed` dictionary and no state is mutated.  The remaining stages
are embedded for completeness: were a subdomain name produced, validation would
run, and on success `create_isolated_environment` would fail (it always returns
`success=False`), so the source would return the
`Failed to create isolated environment` dictionary.  The stages after that
check (SSL configuration, deployment, registry insert, and the
`secure_deployment` audit append — which would itself raise `AttributeError` on
`security_service.SecurityAudit`) are unreachable and not modelled further. -/
def createSecureSubdomain (now : Int) (projectId businessName clientIp : String)
    (ds : DeployState) : DeployResult × DeployState :=
  match generateSecureSubdomain businessName with
  | .error e =>
      ({ success := false
         error := some ("Deployment failed: " ++ pyErrMessage e)
         security_level := some .critical }, ds)
  | .ok sub =>
      let v := validateSubdomainSecurity now sub clientIp ds.sec
      let ds1 : DeployState := { ds with sec := v.2 }
      if v.1.valid = false then
        ({ success := false
           error := v.1.error
           security_level := v.1.security_level
           threat_detected := v.1.threat_detected }, ds1)
      else
        let env := createIsolatedEnvironment ("/deployments/" ++ projectId) projectId ds1.sec
        let ds2 : DeployState := { ds1 with sec := env.2 }
        ({ success := false
           error := some "Failed to create isolated environment"
           security_level := some .critical }, ds2)

/-- Result of `revoke_subdomain`. -/
structure RevokeResult where
  success : Bool
  error : Option String := none
  message : Option String := none
deriving DecidableEq

/-- `SecureDeploymentService.revoke_subdomain`.  When the subdomain is absent
the early return fires.  When it is present the source evaluates
`security_service.SecurityAudit`, but `SecurityAudit` is a module-level class
of `security_service.py`, not an attribute of the `SecurityService` instance,
so `AttributeError` is raised before the audit append and before the
`del self.active_subdomains[...]` statement; the handler returns a failure and
the registry and audit log are unchanged. -/
def revokeSubdomain (subdomainName _clientIp : String) (ds : DeployState) :
    RevokeResult × DeployState :=
  if dictContains ds.active_subdomains subdomainName = false then
    ({ success := false, error := some "Subdomain not found" }, ds)
  else
    ({ success := false
       error := some
         ("Revocation failed: SecurityService object has no attribute SecurityAudit") },
     ds)

/-- A security alert of `_get_security_alerts`: type, severity, message. -/
structure Alert where
  alertType : String
  severity : String
  message : String
deriving DecidableEq

/-- `SecureDeploymentService._get_security_alerts`.  The SSL status returned by
`verify_wildcard_ssl_security` is always the failure dictionary (its audit
construction omits `client_ip`), so `certificate_info` is absent,
`days_until_expiry` defaults to 0, and the expiry alert is always emitted; then
one alert per active subdomain with score below 60, in registry order. -/
def getSecurityAlerts (ds : DeployState) : List Alert :=
  { alertType := "ssl_expiration", severity := "high"
    message := "SSL certificate expires soon" } ::
  (ds.active_subdomains.filter (fun kv => kv.2.security_score < 60)).map
    (fun kv => { alertType := "low_security_score", severity := "medium"
                 message := "Low security score for " ++ kv.1 })

/-- Python `round(x, 2)` (round half to even at the second decimal), modelled
over the rationals; the source computes over IEEE doubles whose stored values
here are exact small integers divided by a small count. -/
def pyRound2 (q : ℚ) : ℚ :=
  let x := q * 100
  let f : Int := ⌊x⌋
  let frac := x - f
  let r : Int :=
    if frac < 1/2 then f
    else if 1/2 < frac then f + 1
    else if f % 2 = 0 then f else f + 1
  (r : ℚ) / 100

/-- Python `l[-5:]`. -/
def lastFive (l : List String) : List String :=
  l.drop (l.length - 5)

/-- Result of `SecureDeploymentService.get_security_report`. -/
structure SecurityReport where
  total_subdomains : Nat
  average_security_score : ℚ
  ssl_configured_count : Nat
  recent_deployments : List String
  security_alerts : List Alert
deriving DecidableEq

/-- `SecureDeploymentService.get_security_report`. -/
def getSecurityReport (ds : DeployState) : SecurityReport :=
  let total := ds.active_subdomains.length
  let avg : ℚ :=
    if 0 < total then
      ((ds.active_subdomains.map (fun kv => (kv.2.security_score : ℚ))).sum) / total
    else 0
  { total_subdomains := total
    average_security_score := pyRound2 avg
    ssl_configured_count :=
      (ds.active_subdomains.filter (fun kv => kv.2.ssl_configured)).length
    recent_deployments := lastFive (ds.active_subdomains.map (fun kv => kv.1))
    security_alerts := getSecurityAlerts ds }

/-! Definitions stating claims: the spec-side score reading for claim C3 and a
driver that runs a sequence of rate checks for one client. -/

/-- Number of positions of the second list at which `pat` occurs as a
contiguous sublist. -/
def occurrenceCount (pat : List Char) : List Char → Nat
  | [] => 0
  | c :: cs =>
      (if pat.isPrefixOf (c :: cs) then 1 else 0) + occurrenceCount pat cs

/-- Number of occurrences of `pat` in `hay`. -/
def strOccurrences (hay pat : String) : Nat :=
  occurrenceCount pat.toList hay.toList

/-- Modelled from the spec for comparison with `calculateSecurityScore` (claim
C3 reads the low-effort penalty as "20 for each occurrence of any of the
substrings test, demo, temp, tmp"): the same formula with the last penalty
counting every occurrence of every pattern. -/
def specOccurrenceScore (name : String) : Int :=
  max 0 (100
    - (if name.length < 5 then 10 else 0)
    - (if hasDigit name then 0 else 5)
    - (if 2 < hyphenCount name then 15 else 0)
    - 20 * (scorePatterns.map (fun p => (strOccurrences name p : Int))).sum)

/-- Run `checkRateLimit` once per timestamp for a fixed client, collecting the
returned booleans (the repeated-attempts scenario of claim C2). -/
def checkSeq (ip : String) : List Int → SecState → List Bool
  | [], _ => []
  | t :: ts, st =>
      let c := checkRateLimit t ip st
      c.1 :: checkSeq ip ts c.2

/-! Helper lemmas. -/

theorem storeGet_storeSet (store : List (String × List Int)) (ip : String)
    (ts : List Int) : storeGet (storeSet store ip ts) ip = ts := by
  induction store with
  | nil => simp [storeSet, storeGet, List.lookup]
  | cons kv rest ih =>
      obtain ⟨k, v⟩ := kv
      by_cases h : k = ip
      · simp [storeSet, h, storeGet, List.lookup]
      · have hne : (ip == k) = false := beq_eq_false_iff_ne.mpr (fun hh => h hh.symm)
        simp only [storeSet, if_neg h, storeGet, List.lookup, hne]
        simpa [storeGet] using ih

theorem checkRateLimit_reject (now : Int) (ip : String) (st : SecState)
    (h : 5 ≤ (prunedTimes now ip st).length) :
    checkRateLimit now ip st =
      (false,
        { rate_limit_store := storeSet st.rate_limit_store ip (prunedTimes now ip st)
          security_audit_log := st.security_audit_log ++ [rateLimitEvent ip] }) := by
  simp [checkRateLimit, h]

theorem checkRateLimit_allow (now : Int) (ip : String) (st : SecState)
    (h : (prunedTimes now ip st).length < 5) :
    checkRateLimit now ip st =
      (true,
        { rate_limit_store :=
            storeSet st.rate_limit_store ip (prunedTimes now ip st ++ [now])
          security_audit_log := st.security_audit_log }) := by
  have h' : ¬ 5 ≤ (prunedTimes now ip st).length := by omega
  simp [checkRateLimit, h']

/-! Claim theorems. -/

/-- C1: for business name `brightideas9` and client `10.0.0.5` on a fresh
registry, the claim says `create_secure_subdomain` completes with
`success=true`, a score in [85,100] and one `secure_deployment` audit event.
The code instead raises `AttributeError` on `security_service.secrets` inside
`_generate_secure_subdomain`; the handler returns `success=false` with severity
CRITICAL, the state is untouched and no audit event is appended. -/
theorem c1_create_secure_subdomain_crashes :
    createSecureSubdomain 0 "proj-1" "brightideas9" "10.0.0.5" ⟨[], ⟨[], []⟩⟩ =
      ({ success := false
         error := some "Deployment failed: SecurityService object has no attribute secrets"
         security_level := some SecurityLevel.critical },
       ⟨[], ⟨[], []⟩⟩) ∧
    ((createSecureSubdomain 0 "proj-1" "brightideas9" "10.0.0.5"
        ⟨[], ⟨[], []⟩⟩).2.sec.security_audit_log.filter
          (fun e => e.event_type == "secure_deployment")).length = 0 := by
  decide

/-- C3 counterexample: the claim reads the low-effort penalty as 20 per
occurrence; on `testtest1` (two occurrences of `test`) that formula yields 60,
while `_calculate_security_score` deducts 20 once per matching pattern and
yields 80. -/
theorem c3_occurrence_counterexample :
    calculateSecurityScore "testtest1" = 80 ∧
    specOccurrenceScore "testtest1" = 60 ∧
    calculateSecurityScore "testtest1" ≠ specOccurrenceScore "testtest1" := by
  decide

/-- C3 amended: the security score equals 100 minus 10 if the length is below
5, minus 5 when no digit occurs, minus 15 when the hyphen count exceeds 2, and
minus 20 for each member of the pattern set that occurs as a substring (counted
once per member), floored at 0; the result always lies in [0,100].  Determinism
is immediate: the embedding is a pure function of the name. -/
theorem c3_score_formula (name : String) :
    calculateSecurityScore name =
      max 0 (100
        - (if name.length < 5 then 10 else 0)
        - (if hasDigit name then 0 else 5)
        - (if 2 < hyphenCount name then 15 else 0)
        - 20 * ((scorePatterns.filter (fun p => strContains name p)).length : Int)) ∧
    0 ≤ calculateSecurityScore name ∧ calculateSecurityScore name ≤ 100 := by
  have key : calculateSecurityScore name =
      max 0 (100
        - (if name.length < 5 then 10 else 0)
        - (if hasDigit name then 0 else 5)
        - (if 2 < hyphenCount name then 15 else 0)
        - 20 * ((scorePatterns.filter (fun p => strContains name p)).length : Int)) := by
    unfold calculateSecurityScore scorePatterns
    cases h1 : strContains name "test" <;> cases h2 : strContains name "demo" <;>
      cases h3 : strContains name "temp" <;> cases h4 : strContains name "tmp" <;>
        simp [List.foldl_cons, List.foldl_nil, List.filter_cons, List.filter_nil,
          h1, h2, h3, h4] <;>
          (congr 1; split_ifs <;> omega)
  refine ⟨key, ?_, ?_⟩
  · rw [key]; exact le_max_left _ _
  · rw [key]
    have hlen : ((scorePatterns.filter (fun p => strContains name p)).length : Int) ≤ 4 := by
      have h := List.length_filter_le (fun p => strContains name p) scorePatterns
      have h4 : scorePatterns.length = 4 := rfl
      omega
    refine max_le (by norm_num) ?_
    split_ifs <;> omega

/-- C6: the claim says a name passing the earlier stages but containing a
blocked word is rejected with one `blocked_pattern` audit event of severity
MEDIUM.  In the code `_check_blocked_patterns` constructs its `SecurityAudit`
without the required `client_ip` argument, so the match on `admin` raises
`TypeError`; the top-level handler returns the generic CRITICAL failure and no
audit event is appended. -/
theorem c6_blocked_pattern_typeerror :
    validateSubdomainSecurity 0 "admin-site" "1.2.3.4" ⟨[], []⟩ =
      (genericFailureResult, ⟨[("1.2.3.4", [0])], []⟩) ∧
    checkBlockedPatterns "admin-site" =
      Except.error (PyErr.typeError
        "SecurityAudit init missing 1 required positional argument: client_ip") ∧
    genericFailureResult.security_level = some SecurityLevel.critical ∧
    (validateSubdomainSecurity 0 "admin-site" "1.2.3.4"
        ⟨[], []⟩).2.security_audit_log = [] := by
  decide

/-- C9: revoking an absent subdomain returns `success=false` and leaves the
registry unchanged, as claimed.  Revoking a present subdomain, however, raises
`AttributeError` on `security_service.SecurityAudit` before the audit append
and before the deletion, so it also returns `success=false`, removes nothing
and appends no `subdomain_revocation` event — against the claim. -/
theorem c9_revoke_attribute_error :
    revokeSubdomain "acme123" "9.9.9.9"
        ⟨[("acme123", (⟨"p1", 0, 95, true, []⟩ : SubdomainInfo))], ⟨[], []⟩⟩ =
      ({ success := false
         error := some
           "Revocation failed: SecurityService object has no attribute SecurityAudit" },
       ⟨[("acme123", (⟨"p1", 0, 95, true, []⟩ : SubdomainInfo))], ⟨[], []⟩⟩) ∧
    revokeSubdomain "missing" "9.9.9.9"
        ⟨[("acme123", (⟨"p1", 0, 95, true, []⟩ : SubdomainInfo))], ⟨[], []⟩⟩ =
      ({ success := false, error := some "Subdomain not found" },
       ⟨[("acme123", (⟨"p1", 0, 95, true, []⟩ : SubdomainInfo))], ⟨[], []⟩⟩) := by
  decide

/-- C5: the claim says a proposed name colliding with an active registry entry
is rejected with a name-collision outcome, without mutating the name, and that
a second insert of an inserted name fails.  The code has no such behavior at
runtime: `_generate_secure_subdomain` raises `AttributeError` on
`security_service.secrets` before its collision check ever runs, so with a
colliding entry already registered the pipeline returns the generic
`Deployment failed` result, appends no event, leaves the registry unchanged,
and never performs any insert at all. -/
theorem c5_no_collision_rejection :
    generateSecureSubdomain "brightideas9" =
      Except.error
        (PyErr.attributeError "SecurityService object has no attribute secrets") ∧
    createSecureSubdomain 0 "proj-1" "brightideas9" "10.0.0.5"
        ⟨[("brightideas9abcdef", (⟨"p0", 0, 95, true, []⟩ : SubdomainInfo))],
         ⟨[], []⟩⟩ =
      ({ success := false
         error := some "Deployment failed: SecurityService object has no attribute secrets"
         security_level := some SecurityLevel.critical },
       ⟨[("brightideas9abcdef", (⟨"p0", 0, 95, true, []⟩ : SubdomainInfo))],
        ⟨[], []⟩⟩) := by
  decide

/-- C2: every rate check stores the pruned window (timestamps within one hour
of the call); with 5 or more entries remaining it returns `false`, appends
exactly one `rate_limit_violation` audit event of severity HIGH and records no
window entry; otherwise it appends the current timestamp and returns `true`.
Consequently a client with an empty window making six attempts within one hour
passes the first five checks and is rejected on the sixth. -/
theorem c2_rate_limit_check :
    (∀ (now : Int) (ip : String) (st : SecState),
      (rateLimitEvent ip).event_type = "rate_limit_violation" ∧
      (rateLimitEvent ip).severity = SecurityLevel.high ∧
      (5 ≤ (prunedTimes now ip st).length →
        (checkRateLimit now ip st).1 = false ∧
        (checkRateLimit now ip st).2.security_audit_log =
          st.security_audit_log ++ [rateLimitEvent ip] ∧
        storeGet (checkRateLimit now ip st).2.rate_limit_store ip =
          prunedTimes now ip st) ∧
      ((prunedTimes now ip st).length < 5 →
        (checkRateLimit now ip st).1 = true ∧
        (checkRateLimit now ip st).2.security_audit_log = st.security_audit_log ∧
        storeGet (checkRateLimit now ip st).2.rate_limit_store ip =
          prunedTimes now ip st ++ [now])) ∧
    (∀ (t1 t2 t3 t4 t5 t6 : Int) (ip : String) (st : SecState),
      storeGet st.rate_limit_store ip = [] →
      t1 ≤ t2 → t2 ≤ t3 → t3 ≤ t4 → t4 ≤ t5 → t5 ≤ t6 →
      t6 - t1 < oneHourSeconds →
      checkSeq ip [t1, t2, t3, t4, t5, t6] st =
        [true, true, true, true, true, false]) := by
  constructor
  · intro now ip st
    refine ⟨rfl, rfl, ?_, ?_⟩
    · intro h
      rw [checkRateLimit_reject now ip st h]
      exact ⟨rfl, rfl, storeGet_storeSet _ _ _⟩
    · intro h
      rw [checkRateLimit_allow now ip st h]
      exact ⟨rfl, rfl, storeGet_storeSet _ _ _⟩
  · intro t1 t2 t3 t4 t5 t6 ip st h0 h12 h23 h34 h45 h56 hwin
    have step : ∀ (now : Int) (w : List Int) (s : SecState),
        storeGet s.rate_limit_store ip = w →
        (∀ t ∈ w, now - t < oneHourSeconds) →
        w.length < 5 →
        (checkRateLimit now ip s).1 = true ∧
        storeGet (checkRateLimit now ip s).2.rate_limit_store ip = w ++ [now] := by
      intro now w s hw hall hlen
      have hpr : prunedTimes now ip s = w := by
        unfold prunedTimes
        rw [hw]
        apply List.filter_eq_self.mpr
        intro t ht
        exact decide_eq_true (hall t ht)
      rw [checkRateLimit_allow now ip s (by rw [hpr]; exact hlen)]
      exact ⟨rfl, by rw [storeGet_storeSet, hpr]⟩
    have h1 := step t1 [] st h0 (by intro t ht; cases ht) (by simp)
    have h2 := step t2 [t1] (checkRateLimit t1 ip st).2
      (by simpa using h1.2)
      (by intro t ht; simp at ht; subst ht; unfold oneHourSeconds at hwin ⊢; omega)
      (by simp)
    have h3 := step t3 [t1, t2] (checkRateLimit t2 ip (checkRateLimit t1 ip st).2).2
      (by simpa using h2.2)
      (by intro t ht; simp at ht
          rcases ht with ht | ht <;> subst ht <;> unfold oneHourSeconds at hwin ⊢ <;> omega)
      (by simp)
    have h4 := step t4 [t1, t2, t3]
      (checkRateLimit t3 ip (checkRateLimit t2 ip (checkRateLimit t1 ip st).2).2).2
      (by simpa using h3.2)
      (by intro t ht; simp at ht
          rcases ht with ht | ht | ht <;> subst ht <;> unfold oneHourSeconds at hwin ⊢ <;> omega)
      (by simp)
    have h5 := step t5 [t1, t2, t3, t4]
      (checkRateLimit t4 ip
        (checkRateLimit t3 ip (checkRateLimit t2 ip (checkRateLimit t1 ip st).2).2).2).2
      (by simpa using h4.2)
      (by intro t ht; simp at ht
          rcases ht with ht | ht | ht | ht <;> subst ht <;>
            unfold oneHourSeconds at hwin ⊢ <;> omega)
      (by simp)
    have hst5 : storeGet (checkRateLimit t5 ip
        (checkRateLimit t4 ip
          (checkRateLimit t3 ip
            (checkRateLimit t2 ip (checkRateLimit t1 ip st).2).2).2).2).2.rate_limit_store ip =
        [t1, t2, t3, t4, t5] := by simpa using h5.2
    have hpr6 : prunedTimes t6 ip (checkRateLimit t5 ip
        (checkRateLimit t4 ip
          (checkRateLimit t3 ip
            (checkRateLimit t2 ip (checkRateLimit t1 ip st).2).2).2).2).2 =
        [t1, t2, t3, t4, t5] := by
      unfold prunedTimes
      rw [hst5]
      apply List.filter_eq_self.mpr
      intro t ht
      simp at ht
      rcases ht with ht | ht | ht | ht | ht <;> subst ht <;>
        refine decide_eq_true ?_ <;> unfold oneHourSeconds at hwin ⊢ <;> omega
    have h6 := checkRateLimit_reject t6 ip _ (by rw [hpr6]; simp)
    simp only [checkSeq]
    rw [h1.1, h2.1, h3.1, h4.1, h5.1, h6]

/-- Witness for `c2_rate_limit_check`: a window already holding five timestamps
at time 0 is rejected at time 0, and six attempts at seconds 0..5 from an empty
window give five passes then a rejection. -/
theorem c2_rate_limit_check_witness :
    ((checkRateLimit 0 "10.0.0.5" ⟨[("10.0.0.5", [0, 0, 0, 0, 0])], []⟩).1 = false ∧
     (checkRateLimit 0 "10.0.0.5" ⟨[("10.0.0.5", [0, 0, 0, 0, 0])], []⟩).2.security_audit_log =
       ([] : List AuditEntry) ++ [rateLimitEvent "10.0.0.5"] ∧
     storeGet (checkRateLimit 0 "10.0.0.5"
         ⟨[("10.0.0.5", [0, 0, 0, 0, 0])], []⟩).2.rate_limit_store "10.0.0.5" =
       prunedTimes 0 "10.0.0.5" ⟨[("10.0.0.5", [0, 0, 0, 0, 0])], []⟩) ∧
    checkSeq "10.0.0.5" [0, 1, 2, 3, 4, 5] ⟨[], []⟩ =
      [true, true, true, true, true, false] :=
  ⟨(c2_rate_limit_check.1 0 "10.0.0.5" ⟨[("10.0.0.5", [0, 0, 0, 0, 0])], []⟩).2.2.1
      (by decide),
   c2_rate_limit_check.2 0 1 2 3 4 5 "10.0.0.5" ⟨[], []⟩ (by decide) (by decide)
     (by decide) (by decide) (by decide) (by decide) (by decide)⟩

theorem validateInput_ok_cases (name : String) (vr : ValidationResult)
    (h : validateInput name = .ok vr) :
    vr = lengthErrorResult ∨ vr = formatErrorResult ∨ vr = { valid := true } := by
  unfold validateInput at h
  split_ifs at h
  · left; cases h; rfl
  · right; left; cases h; rfl
  · rcases hf : suspiciousChars.find? (fun s => strContains (pyLower name) s) with _ | s
    · rw [hf] at h; right; right; cases h; rfl
    · rw [hf] at h; cases h

theorem validateSubdomainSecurity_result (now : Int) (name ip : String)
    (st : SecState) :
    (validateSubdomainSecurity now name ip st).1 = rateLimitedResult ∨
    (validateSubdomainSecurity now name ip st).1 = genericFailureResult ∨
    (validateSubdomainSecurity now name ip st).1 = lengthErrorResult ∨
    (validateSubdomainSecurity now name ip st).1 = formatErrorResult ∨
    (validateSubdomainSecurity now name ip st).1 = blockedPatternsResult ∨
    (validateSubdomainSecurity now name ip st).1 = homographResult ∨
    (validateSubdomainSecurity now name ip st).1 =
      validResult (calculateSecurityScore name) := by
  cases hb : (checkRateLimit now ip st).1 with
  | false =>
      left; simp [validateSubdomainSecurity, hb]
  | true =>
      cases hvi : validateInput name with
      | error e =>
          right; left; simp [validateSubdomainSecurity, hb, hvi]
      | ok vr =>
          cases hv : vr.valid with
          | false =>
              rcases validateInput_ok_cases name vr hvi with h | h | h
              · right; right; left
                simp [validateSubdomainSecurity, hb, hvi, hv, h, lengthErrorResult]
              · right; right; right; left
                simp [validateSubdomainSecurity, hb, hvi, hv, h, formatErrorResult]
              · rw [h] at hv; cases hv
          | true =>
              cases hbp : checkBlockedPatterns name with
              | error e =>
                  right; left
                  simp [validateSubdomainSecurity, hb, hvi, hv, hbp]
              | ok bb =>
                  cases bb with
                  | true =>
                      right; right; right; right; left
                      simp [validateSubdomainSecurity, hb, hvi, hv, hbp]
                  | false =>
                      cases hh : detectHomograph name with
                      | error e =>
                          right; left
                          simp [validateSubdomainSecurity, hb, hvi, hv, hbp, hh]
                      | ok b2 =>
                          cases b2 with
                          | true =>
                              right; right; right; right; right; left
                              simp [validateSubdomainSecurity, hb, hvi, hv, hbp, hh]
                          | false =>
                              right; right; right; right; right; right
                              simp [validateSubdomainSecurity, hb, hvi, hv, hbp, hh]

theorem validateSubdomainSecurity_state (now : Int) (name ip : String)
    (st : SecState) :
    (validateSubdomainSecurity now name ip st).2 = (checkRateLimit now ip st).2 ∨
    ((validateSubdomainSecurity now name ip st).1 =
        validResult (calculateSecurityScore name) ∧
     (validateSubdomainSecurity now name ip st).2 =
       { (checkRateLimit now ip st).2 with
         security_audit_log := (checkRateLimit now ip st).2.security_audit_log ++
           [validationEvent name ip (calculateSecurityScore name)] }) := by
  cases hb : (checkRateLimit now ip st).1 with
  | false =>
      left; simp [validateSubdomainSecurity, hb]
  | true =>
      cases hvi : validateInput name with
      | error e => left; simp [validateSubdomainSecurity, hb, hvi]
      | ok vr =>
          cases hv : vr.valid with
          | false => left; simp [validateSubdomainSecurity, hb, hvi, hv]
          | true =>
              cases hbp : checkBlockedPatterns name with
              | error e => left; simp [validateSubdomainSecurity, hb, hvi, hv, hbp]
              | ok bb =>
                  cases bb with
                  | true => left; simp [validateSubdomainSecurity, hb, hvi, hv, hbp]
                  | false =>
                      cases hh : detectHomograph name with
                      | error e =>
                          left; simp [validateSubdomainSecurity, hb, hvi, hv, hbp, hh]
                      | ok b2 =>
                          cases b2 with
                          | true =>
                              left
                              simp [validateSubdomainSecurity, hb, hvi, hv, hbp, hh]
                          | false =>
                              right
                              simp [validateSubdomainSecurity, hb, hvi, hv, hbp, hh]

/-- C4 counterexample: validating the too-short name `ab` on a fresh state is
rejected, yet the audit log stays empty — the length rejection appends no
audit event, against "every rejection path appends exactly one audit event". -/
theorem c4_length_rejection_counterexample :
    (validateSubdomainSecurity 0 "ab" "10.0.0.7" ⟨[], []⟩).1.valid = false ∧
    (validateSubdomainSecurity 0 "ab" "10.0.0.7" ⟨[], []⟩).2.security_audit_log = [] := by
  decide

/-- C4 amended: among the rejection paths of the validation pipeline only the
rate-limit rejection appends an audit event (exactly one, the HIGH
`rate_limit_violation` event).  Length and charset/format rejections append
none, and the suspicious-token, blocked-word and homograph paths raise
`TypeError` while constructing their audit records (missing `client_ip`), so
they return the generic failure with no event appended either. -/
theorem c4_rejection_audit_amended (now : Int) (name ip : String) (st : SecState)
    (h : (validateSubdomainSecurity now name ip st).1.valid = false) :
    (validateSubdomainSecurity now name ip st).2.security_audit_log =
      st.security_audit_log ++
        (if 5 ≤ (prunedTimes now ip st).length then [rateLimitEvent ip] else []) := by
  rcases validateSubdomainSecurity_state now name ip st with hs | ⟨hr, _⟩
  · rw [hs]
    by_cases hrl : 5 ≤ (prunedTimes now ip st).length
    · rw [checkRateLimit_reject now ip st hrl, if_pos hrl]
    · rw [checkRateLimit_allow now ip st (by omega), if_neg hrl]
      simp
  · rw [hr] at h
    simp [validResult] at h

/-- Witness for `c4_rejection_audit_amended`: the length rejection of `ab` on
a fresh state appends nothing. -/
theorem c4_rejection_audit_amended_witness :
    (validateSubdomainSecurity 0 "ab" "9.9.9.9" ⟨[], []⟩).2.security_audit_log =
      ([] : List AuditEntry) ++
        (if 5 ≤ (prunedTimes 0 "9.9.9.9" ⟨[], []⟩).length
         then [rateLimitEvent "9.9.9.9"] else []) :=
  c4_rejection_audit_amended 0 "ab" "9.9.9.9" ⟨[], []⟩ (by decide)

/-- C7: whenever a pipeline result carries a security score, its security
level is exactly the threshold function of that score (at least 80 maps to
LOW, at least 60 to MEDIUM, at least 40 to HIGH, otherwise CRITICAL); no
result sets a level for a score independently. -/
theorem c7_level_is_function_of_score (now : Int) (name ip : String)
    (st : SecState) (s : Int)
    (h : (validateSubdomainSecurity now name ip st).1.security_score = some s) :
    (validateSubdomainSecurity now name ip st).1.security_level =
      some (if 80 ≤ s then SecurityLevel.low
            else if 60 ≤ s then SecurityLevel.medium
            else if 40 ≤ s then SecurityLevel.high
            else SecurityLevel.critical) := by
  rcases validateSubdomainSecurity_result now name ip st with
    hr | hr | hr | hr | hr | hr | hr <;> rw [hr] at h ⊢
  · simp [rateLimitedResult] at h
  · simp [genericFailureResult] at h
  · simp [lengthErrorResult] at h
  · simp [formatErrorResult] at h
  · simp [blockedPatternsResult] at h
  · simp [homographResult] at h
  · simp only [validResult, Option.some.injEq] at h
    subst h
    simp [validResult, getSecurityLevel]

/-- Witness for `c7_level_is_function_of_score`: `brightideas9` validates with
score 100, and the returned level is the threshold function at 100. -/
theorem c7_level_is_function_of_score_witness :
    (validateSubdomainSecurity 0 "brightideas9" "1.2.3.4" ⟨[], []⟩).1.security_level =
      some (if 80 ≤ (100 : Int) then SecurityLevel.low
            else if 60 ≤ (100 : Int) then SecurityLevel.medium
            else if 40 ≤ (100 : Int) then SecurityLevel.high
            else SecurityLevel.critical) :=
  c7_level_is_function_of_score 0 "brightideas9" "1.2.3.4" ⟨[], []⟩ 100 (by decide)

/-- C8: every result the validation pipeline returns satisfies the invariant
that a detected threat implies the result is not valid. -/
theorem c8_threat_detected_implies_invalid (now : Int) (name ip : String)
    (st : SecState)
    (h : (validateSubdomainSecurity now name ip st).1.threat_detected = true) :
    (validateSubdomainSecurity now name ip st).1.valid = false := by
  rcases validateSubdomainSecurity_result now name ip st with
    hr | hr | hr | hr | hr | hr | hr <;> rw [hr] at h ⊢ <;>
    first
      | rfl
      | simp [validResult] at h

/-- Witness for `c8_threat_detected_implies_invalid`: a rate-limited request
(five recent attempts already recorded) has `threat_detected = true` and is
indeed invalid. -/
theorem c8_threat_detected_implies_invalid_witness :
    (validateSubdomainSecurity 0 "brightideas9" "10.0.0.5"
        ⟨[("10.0.0.5", [0, 0, 0, 0, 0])], []⟩).1.valid = false :=
  c8_threat_detected_implies_invalid 0 "brightideas9" "10.0.0.5"
    ⟨[("10.0.0.5", [0, 0, 0, 0, 0])], []⟩ (by decide)

theorem pyRound2_zero : pyRound2 0 = 0 := by
  unfold pyRound2
  norm_num

/-- C10: the deployment security report never divides by zero — on an empty
registry the average security score is 0 and the SSL-configured count is 0;
on a non-empty registry the average is the mean of the active entries' scores
rounded to two decimal places and the SSL-configured count is the number of
entries whose `ssl_configured` flag is set. -/
theorem c10_security_report (ds : DeployState) :
    (ds.active_subdomains = [] →
      (getSecurityReport ds).average_security_score = 0 ∧
      (getSecurityReport ds).ssl_configured_count = 0) ∧
    (ds.active_subdomains ≠ [] →
      (getSecurityReport ds).average_security_score =
        pyRound2 ((ds.active_subdomains.map
            (fun kv => (kv.2.security_score : ℚ))).sum /
          (ds.active_subdomains.length : ℚ)) ∧
      (getSecurityReport ds).ssl_configured_count =
        ds.active_subdomains.countP (fun kv => kv.2.ssl_configured)) := by
  constructor
  · intro h
    unfold getSecurityReport
    refine ⟨?_, by simp [h]⟩
    simp only [h, List.length_nil, lt_irrefl, if_false]
    exact pyRound2_zero
  · intro h
    have hpos : 0 < ds.active_subdomains.length := List.length_pos.mpr h
    unfold getSecurityReport
    exact ⟨by simp [hpos], by simp [List.countP_eq_length_filter]⟩

/-- Witness for `c10_security_report`: the empty registry, and a two-entry
registry with scores 90 and 80 of which one has SSL configured. -/
theorem c10_security_report_witness :
    ((getSecurityReport ⟨[], ⟨[], []⟩⟩).average_security_score = 0 ∧
     (getSecurityReport ⟨[], ⟨[], []⟩⟩).ssl_configured_count = 0) ∧
    ((getSecurityReport
        ⟨[("a", (⟨"p", 0, 90, true, []⟩ : SubdomainInfo)),
          ("b", (⟨"q", 0, 80, false, []⟩ : SubdomainInfo))],
         ⟨[], []⟩⟩).average_security_score =
      pyRound2
        ((List.map (fun kv => (kv.2.security_score : ℚ))
            [("a", (⟨"p", 0, 90, true, []⟩ : SubdomainInfo)),
             ("b", (⟨"q", 0, 80, false, []⟩ : SubdomainInfo))]).sum /
          ((List.length
            [("a", (⟨"p", 0, 90, true, []⟩ : SubdomainInfo)),
             ("b", (⟨"q", 0, 80, false, []⟩ : SubdomainInfo))] : Nat) : ℚ)) ∧
     (getSecurityReport
        ⟨[("a", (⟨"p", 0, 90, true, []⟩ : SubdomainInfo)),
          ("b", (⟨"q", 0, 80, false, []⟩ : SubdomainInfo))],
         ⟨[], []⟩⟩).ssl_configured_count =
      List.countP (fun kv => kv.2.ssl_configured)
        [("a", (⟨"p", 0, 90, true, []⟩ : SubdomainInfo)),
         ("b", (⟨"q", 0, 80, false, []⟩ : SubdomainInfo))]) :=
  ⟨(c10_security_report ⟨[], ⟨[], []⟩⟩).1 rfl,
   (c10_security_report
      ⟨[("a", (⟨"p", 0, 90, true, []⟩ : SubdomainInfo)),
        ("b", (⟨"q", 0, 80, false, []⟩ : SubdomainInfo))],
       ⟨[], []⟩⟩).2 (by decide)⟩
